import Mathlib

/-!
Shallow embedding of the MetaMCP public-endpoint gateway
(`apps/backend/src/routers/public-metamcp/streamable-http.ts`) and of the
retry helper `retryDbQuery` (`lib/utils.ts`), together with theorems settling
the specification claims about them.

The module-level mutable objects `transports`, `metamcpServers` and
`endpointSessionCounts` are modelled as association lists inside an explicit
`GatewayState`; opaque runtime objects (transports, server instances) are
modelled by identity numbers drawn from counters, and externally visible
actions (factory calls, connects, teardowns, dispatches) are recorded in an
event log so that ordering and counting properties can be stated.
-/

namespace MetaMCP

/-- Association-list finite map with string keys, modelling a JS object used
as a dictionary. -/
abbrev AList (α : Type) := List (String × α)

/-- Lookup `obj[k]`: `none` models JS `undefined`. -/
def alookup {α : Type} : AList α → String → Option α
  | [], _ => none
  | (k', v) :: rest, k => if k' = k then some v else alookup rest k

/-- Assignment `obj[k] = v`: replaces in place, else appends. -/
def aset {α : Type} : AList α → String → α → AList α
  | [], k, v => [(k, v)]
  | (k', v') :: rest, k, v =>
      if k' = k then (k, v) :: rest else (k', v') :: aset rest k v

/-- Deletion `delete obj[k]`. -/
def aerase {α : Type} : AList α → String → AList α
  | [], _ => []
  | (k', v') :: rest, k =>
      if k' = k then aerase rest k else (k', v') :: aerase rest k

theorem alookup_aset_self {α : Type} (m : AList α) (k : String) (v : α) :
    alookup (aset m k v) k = some v := by
  induction m with
  | nil => simp [aset, alookup]
  | cons p rest ih =>
      obtain ⟨k', v'⟩ := p
      by_cases h : k' = k <;> simp [aset, alookup, h, ih]

theorem alookup_none_aerase {α : Type} (m : AList α) (k : String)
    (h : alookup m k = none) : aerase m k = m := by
  induction m with
  | nil => simp [aerase]
  | cons p rest ih =>
      obtain ⟨k', v'⟩ := p
      by_cases hk : k' = k
      · simp [alookup, hk] at h
      · simp [alookup, hk] at h
        simp [aerase, hk, ih h]

theorem mem_aset {α : Type} {m : AList α} {k : String} {v : α} {p : String × α}
    (h : p ∈ aset m k v) : p = (k, v) ∨ p ∈ m := by
  induction m with
  | nil => simpa [aset] using h
  | cons q rest ih =>
      obtain ⟨k', v'⟩ := q
      by_cases hk : k' = k
      · simp [aset, hk] at h
        rcases h with h | h
        · exact Or.inl h
        · exact Or.inr (List.mem_cons_of_mem _ h)
      · simp [aset, hk] at h
        rcases h with h | h
        · exact Or.inr (by simp [h])
        · rcases ih h with h' | h'
          · exact Or.inl h'
          · exact Or.inr (List.mem_cons_of_mem _ h')

theorem mem_aerase {α : Type} {m : AList α} {k : String} {p : String × α}
    (h : p ∈ aerase m k) : p ∈ m := by
  induction m with
  | nil => simp [aerase] at h
  | cons q rest ih =>
      obtain ⟨k', v'⟩ := q
      by_cases hk : k' = k
      · simp [aerase, hk] at h
        exact List.mem_cons_of_mem _ (ih h)
      · simp [aerase, hk] at h
        rcases h with h | h
        · simp [h]
        · exact List.mem_cons_of_mem _ (ih h)

theorem alookup_mem {α : Type} {m : AList α} {k : String} {v : α}
    (h : alookup m k = some v) : (k, v) ∈ m := by
  induction m with
  | nil => simp [alookup] at h
  | cons q rest ih =>
      obtain ⟨k', v'⟩ := q
      by_cases hk : k' = k
      · simp [alookup, hk] at h
        simp [hk, h]
      · simp [alookup, hk] at h
        exact List.mem_cons_of_mem _ (ih h)

/-- Externally visible actions of the gateway, recorded in order.
`factoryCall` is one invocation of the Upstream Factory `createServer`;
`teardown` is one invocation of a cached instance's `cleanup` action. -/
inductive Event : Type
  | factoryCall (endpointName : String) (instId : Nat)
  | storeTransport (sessionId : String) (transportId : Nat)
  | connect (sessionId : String) (transportId : Nat)
  | dispatch (sessionId : String) (transportId : Nat)
  | closeTransport (transportId : Nat)
  | sessionConnectionsCleanup (sessionId : String)
  | teardown (endpointName : String) (instId : Nat)
  deriving DecidableEq, Repr

/-- The module-level mutable state of `streamable-http.ts`:
`transports` (sessionId → transport object, by identity number),
`metamcpServers` (endpoint name → cached server instance, by identity number),
`endpointSessionCounts` (endpoint name → JS number). The two counters mint
fresh identities for created objects, and `log` records external actions. -/
structure GatewayState : Type where
  transports : AList Nat
  metamcpServers : AList Nat
  endpointSessionCounts : AList Int
  nextInstanceId : Nat
  nextTransportId : Nat
  log : List Event
  deriving DecidableEq, Repr

/-- The state at process start: all three maps empty. -/
def initialState : GatewayState :=
  { transports := [], metamcpServers := [], endpointSessionCounts := []
    nextInstanceId := 0, nextTransportId := 0, log := [] }

/-- Number of Upstream Factory invocations recorded so far. -/
def factoryCalls (st : GatewayState) : Nat :=
  (st.log.filter fun ev =>
    match ev with | .factoryCall _ _ => true | _ => false).length

/-- Number of teardown invocations recorded so far. -/
def teardownCalls (st : GatewayState) : Nat :=
  (st.log.filter fun ev =>
    match ev with | .teardown _ _ => true | _ => false).length

/-! ### `createMetaMcpServer`, split at its suspension point

The source is
```
if (metamcpServers[endpointName]) { return metamcpServers[endpointName]; }
const { server, cleanup } = await createServer(namespaceUuid, sessionId);
...
metamcpServers[endpointName] = serverInstance;
return serverInstance;
```
The `await` is a suspension point: the cache check and the start of the
factory call run in one synchronous segment, the cache store runs in the
continuation after the factory resolves. We model the two segments
separately so that interleavings of concurrent callers can be expressed, and
define the sequential (uncontended) function from them. -/

/-- Synchronous prefix of `createMetaMcpServer`: the cache check. -/
def createCheck (st : GatewayState) (endpointName : String) : Option Nat :=
  alookup st.metamcpServers endpointName

/-- Cache miss: the factory call `createServer(namespaceUuid, sessionId)`
begins; the caller suspends at the `await`. A fresh instance identity is
minted for the invocation. -/
def createStart (st : GatewayState) (endpointName : String) :
    GatewayState × Nat :=
  let inst := st.nextInstanceId
  ({ st with nextInstanceId := inst + 1
             log := st.log ++ [Event.factoryCall endpointName inst] }, inst)

/-- Continuation after the `await`: cache the produced instance under the
endpoint name (`metamcpServers[endpointName] = serverInstance`). -/
def createFinish (st : GatewayState) (endpointName : String) (inst : Nat) :
    GatewayState :=
  { st with metamcpServers := aset st.metamcpServers endpointName inst }

/-- `createMetaMcpServer` run without interruption (no concurrent caller). -/
def createMetaMcpServer (st : GatewayState) (endpointName : String) :
    GatewayState × Nat :=
  match createCheck st endpointName with
  | some inst => (st, inst)
  | none =>
      let p := createStart st endpointName
      (createFinish p.1 endpointName p.2, p.2)

/-! ### The POST handler -/

/-- Response body shapes the router produces. `rawError` models
`res.json(error)` applied to a caught exception value (the exception payload
is carried verbatim); `jsonError` models the structured
`{ error, message }` bodies. -/
inductive Body : Type
  | empty
  | text (s : String)
  | jsonError (error message : String)
  | rawError (err : String)
  deriving DecidableEq, Repr

/-- An HTTP response: status code and body. -/
structure HttpResponse : Type where
  status : Nat
  body : Body
  deriving DecidableEq, Repr

/-- Failure injection for the Begin path: which awaited step throws.
`ok` is the nominal run; `atFactory` makes `createServer` reject;
`atConnect` makes `server.connect(transport)` throw; `atDispatch` makes
`transport.handleRequest` throw. -/
inductive BeginFail : Type
  | ok
  | atFactory
  | atConnect
  | atDispatch
  deriving DecidableEq, Repr

/-- The Begin path after `createMetaMcpServer` returned instance `inst`:
increment the endpoint's session count, create the transport, store it in
`transports`, connect the server to it, and handle the request — in source
order. `err` is the payload of the injected exception; every throw is caught
by the route's `catch` which answers `res.status(500).json(error)`. -/
def beginAfterCreate (st : GatewayState) (endpointName sid : String)
    (fail : BeginFail) (err : String) : GatewayState × HttpResponse :=
  let c := (alookup st.endpointSessionCounts endpointName).getD 0
  let counts1 := aset st.endpointSessionCounts endpointName (c + 1)
  let st1 := { st with endpointSessionCounts := counts1 }
  let tid := st1.nextTransportId
  let st2 := { st1 with nextTransportId := tid + 1 }
  let st3 :=
    { st2 with transports := aset st2.transports sid tid
               log := st2.log ++ [Event.storeTransport sid tid] }
  if fail = .atConnect then (st3, ⟨500, .rawError err⟩)
  else
    let st4 := { st3 with log := st3.log ++ [Event.connect sid tid] }
    if fail = .atDispatch then (st4, ⟨500, .rawError err⟩)
    else
      let st5 := { st4 with log := st4.log ++ [Event.dispatch sid tid] }
      (st5, ⟨200, .empty⟩)

/-- The POST route's Begin branch (no `mcp-session-id` header): get or
create the endpoint's server instance, then run the rest of the path.
A factory rejection propagates before any cache store or count increment. -/
def beginPath (st : GatewayState) (endpointName sid : String)
    (fail : BeginFail) (err : String) : GatewayState × HttpResponse :=
  match createCheck st endpointName with
  | some inst =>
      let _ := inst
      beginAfterCreate st endpointName sid fail err
  | none =>
      if fail = .atFactory then (st, ⟨500, .rawError err⟩)
      else
        let p := createStart st endpointName
        let st1 := createFinish p.1 endpointName p.2
        beginAfterCreate st1 endpointName sid fail err

/-- The POST route's Continue branch (`mcp-session-id` header present):
look up the transport; unknown id → 404 text; known id → forward the request
through that same transport. -/
def continuePath (st : GatewayState) (sid : String) :
    GatewayState × HttpResponse :=
  match alookup st.transports sid with
  | none => (st, ⟨404, .text ("Transport not found for sessionId " ++ sid)⟩)
  | some tid =>
      ({ st with log := st.log ++ [Event.dispatch sid tid] }, ⟨200, .empty⟩)

/-- The GET route: requires a known session id; unknown → 404 text; known →
forward through the stored transport. -/
def getPath (st : GatewayState) (sid : String) :
    GatewayState × HttpResponse :=
  match alookup st.transports sid with
  | none => (st, ⟨404, .text "Session not found"⟩)
  | some tid =>
      ({ st with log := st.log ++ [Event.dispatch sid tid] }, ⟨200, .empty⟩)

/-! ### Cleanup and the DELETE handler -/

/-- `cleanupEndpointIfUnused`: if the endpoint's session count is `<= 0` and
a server instance is cached for it, invoke its `cleanup` (teardown) and
delete the cache and count entries. -/
def cleanupEndpointIfUnused (st : GatewayState) (endpointName : String) :
    GatewayState :=
  if (alookup st.endpointSessionCounts endpointName).getD 0 ≤ 0 then
    match alookup st.metamcpServers endpointName with
    | some inst =>
        { st with log := st.log ++ [Event.teardown endpointName inst]
                  metamcpServers := aerase st.metamcpServers endpointName
                  endpointSessionCounts :=
                    aerase st.endpointSessionCounts endpointName }
    | none => st
  else st

/-- First statement of `cleanupSession`: if a transport is stored for the
session id, remove it from the map and close it. -/
def closeTransportStage (st : GatewayState) (sid : String) : GatewayState :=
  match alookup st.transports sid with
  | some tid =>
      { st with transports := aerase st.transports sid
                log := st.log ++ [Event.closeTransport tid] }
  | none => st

/-- The endpoint-count map with one endpoint's count decremented. -/
def decrementedCounts (st : GatewayState) (endpointName : String) :
    AList Int :=
  aset st.endpointSessionCounts endpointName
    ((alookup st.endpointSessionCounts endpointName).getD 0 - 1)

/-- Second statement of `cleanupSession`: decrement the endpoint's session
count if it is positive. -/
def decrementStage (st : GatewayState) (endpointName : String) :
    GatewayState :=
  if (alookup st.endpointSessionCounts endpointName).getD 0 > 0 then
    { st with endpointSessionCounts := decrementedCounts st endpointName }
  else st

/-- Third statement of `cleanupSession`: the external per-session cleanup
hook `cleanupSessionConnections(sessionId)`. -/
def sessionConnectionsStage (st : GatewayState) (sid : String) :
    GatewayState :=
  { st with log := st.log ++ [Event.sessionConnectionsCleanup sid] }

/-- `cleanupSession`: close and remove the transport if present, decrement
the endpoint's session count if positive, run the external per-session
cleanup hook, then `cleanupEndpointIfUnused` — in source order. -/
def cleanupSession (st : GatewayState) (sid endpointName : String) :
    GatewayState :=
  cleanupEndpointIfUnused
    (sessionConnectionsStage
      (decrementStage (closeTransportStage st sid) endpointName) sid)
    endpointName

/-- The DELETE route: a missing `mcp-session-id` header → 400; otherwise run
`cleanupSession` and answer 200 with an empty body. -/
def deletePath (st : GatewayState) (endpointName : String)
    (sessionHeader : Option String) : GatewayState × HttpResponse :=
  match sessionHeader with
  | none => (st, ⟨400, .text "Missing sessionId"⟩)
  | some sid => (cleanupSession st sid endpointName, ⟨200, .empty⟩)

/-! ### Interleaved execution of concurrent Begin requests

Node's event loop runs each request handler as one task; a task only yields
at an `await`. The Begin path's first suspension point is the
`await createServer(...)` inside `createMetaMcpServer`. A task is therefore
a sequence of synchronous segments: (1) cache check, and on a miss start of
the factory call; (2) resumption that caches the produced instance; (3) the
rest of the handler. `Phase` is the task's program counter between
segments, and `taskStep` runs its next segment against the shared state. -/

inductive Phase : Type
  | notStarted
  | pendingFactory (inst : Nat)
  | created (inst : Nat)
  | done (inst : Nat)
  deriving DecidableEq, Repr

/-- Run one synchronous segment of a Begin task for endpoint `endpointName`
with predetermined session id `sid` (the nominal, no-failure path). -/
def taskStep (endpointName sid : String) (st : GatewayState) :
    Phase → GatewayState × Phase
  | .notStarted =>
      match createCheck st endpointName with
      | some inst => (st, .created inst)
      | none =>
          let p := createStart st endpointName
          (p.1, .pendingFactory p.2)
  | .pendingFactory inst => (createFinish st endpointName inst, .created inst)
  | .created inst =>
      ((beginAfterCreate st endpointName sid BeginFail.ok "").1, .done inst)
  | .done inst => (st, .done inst)

/-- Run two Begin tasks A (session `sidA`) and B (session `sidB`) for the
same endpoint under a schedule: `false` steps task A, `true` steps task B. -/
def runSchedule (endpointName sidA sidB : String) :
    GatewayState → Phase → Phase → List Bool → GatewayState × Phase × Phase
  | st, pa, pb, [] => (st, pa, pb)
  | st, pa, pb, false :: rest =>
      let p := taskStep endpointName sidA st pa
      runSchedule endpointName sidA sidB p.1 p.2 pb rest
  | st, pa, pb, true :: rest =>
      let p := taskStep endpointName sidB st pb
      runSchedule endpointName sidA sidB p.1 pa p.2 rest

/-! ### The API-key authentication middleware -/

/-- The endpoint-configuration fields `authenticateApiKey` consults. -/
structure Endpoint : Type where
  enable_api_key_auth : Bool
  use_query_param_auth : Bool
  deriving DecidableEq, Repr

/-- The request fields `authenticateApiKey` consults: the `authorization`
and `x-api-key` headers and the `api_key`/`apikey` query parameters
(`none` models an absent header/parameter). -/
structure Request : Type where
  authorizationHeader : Option String
  xApiKeyHeader : Option String
  queryApiKey : Option String
  queryApikey : Option String
  deriving DecidableEq, Repr

/-- JS truthiness of a possibly-absent string: `undefined` and `""` are
falsy. -/
def jsTruthy : Option String → Bool
  | none => false
  | some s => !(s == "")

/-- Header extraction:
`authHeader && authHeader.startsWith("Bearer ") ? authHeader.substring(7)
: req.headers["x-api-key"]`. -/
def headerApiKey (req : Request) : Option String :=
  match req.authorizationHeader with
  | some h =>
      if !(h == "") && h.startsWith "Bearer " then some (h.drop 7)
      else req.xApiKeyHeader
  | none => req.xApiKeyHeader

/-- Full credential extraction: headers first; only if no truthy header key
was found and the endpoint enables query-parameter auth,
`req.query.api_key || req.query.apikey`. -/
def extractApiKey (endpoint : Endpoint) (req : Request) : Option String :=
  let k := headerApiKey req
  if !(jsTruthy k) && endpoint.use_query_param_auth then
    if jsTruthy req.queryApiKey then req.queryApiKey else req.queryApikey
  else k

/-- Outcome of the middleware: `next` proceeds to the route handler,
carrying the audit fields set on the request; `reject` short-circuits with a
response. -/
inductive AuthOutcome : Type
  | next (apiKeyUserId apiKeyUuid : Option String)
  | reject (resp : HttpResponse)
  deriving DecidableEq, Repr

/-- The accepted-methods list enumerated in the 401 message. -/
def authMethods (endpoint : Endpoint) : List String :=
  ["Authorization header (Bearer token)", "X-API-Key header"] ++
    (if endpoint.use_query_param_auth then
      ["query parameter (api_key or apikey)"] else [])

/-- `authenticateApiKey`:
skip when `enable_api_key_auth` is off; otherwise extract a credential,
401 "Authentication required" when none, else consult the Credential
Validator (modelled as a function from key to an optional
`(user_id, key_uuid)` pair), 401 "Invalid API key" on failure.
The returned `Bool` records whether the validator was invoked. -/
def authenticateApiKey (validate : String → Option (String × String))
    (endpoint : Endpoint) (req : Request) : AuthOutcome × Bool :=
  if !endpoint.enable_api_key_auth then (.next none none, false)
  else
    let apiKey := extractApiKey endpoint req
    if !(jsTruthy apiKey) then
      (.reject ⟨401, .jsonError "Authentication required"
        ("API key required in one of: " ++
          String.intercalate ", " (authMethods endpoint))⟩, false)
    else
      match validate (apiKey.getD "") with
      | none =>
          (.reject ⟨401, .jsonError "Invalid API key"
            "The provided API key is invalid or inactive"⟩, true)
      | some (uid, kuuid) => (.next (some uid) (some kuuid), true)

/-! ### `retryDbQuery` (`lib/utils.ts`)

The query thunk may succeed or throw differently on each invocation; it is
modelled as a function from the attempt index (the source's `attempt`
counter, starting at 0) to an `Except` outcome. -/

/-- The retry loop, by fuel: `remaining = retries - attempt` invocations may
still be retried after the current one. Returns the loop's outcome together
with the number of invocations of `query` performed. On the last permitted
attempt (`remaining = 0`, i.e. `attempt >= retries`) an error is rethrown. -/
def retryGo {ε α : Type} (query : Nat → Except ε α) :
    Nat → Nat → Except ε α × Nat
  | 0, attempt => (query attempt, 1)
  | r + 1, attempt =>
      match query attempt with
      | .ok a => (.ok a, 1)
      | .error _ =>
          let p := retryGo query r (attempt + 1)
          (p.1, p.2 + 1)

/-- `retryDbQuery(query, { retries })` (the source defaults `retries` to 10;
`delayMs` only paces the retries and is not modelled). -/
def retryDbQuery {ε α : Type} (query : Nat → Except ε α) (retries : Nat) :
    Except ε α :=
  (retryGo query retries 0).1

/-- Number of invocations of the query thunk `retryDbQuery` performs. -/
def retryDbQueryCalls {ε α : Type} (query : Nat → Except ε α)
    (retries : Nat) : Nat :=
  (retryGo query retries 0).2

/-! ### Helper lemmas about the gateway operations -/

theorem beginAfterCreate_counts (st : GatewayState) (e sid : String)
    (fail : BeginFail) (err : String) :
    ((beginAfterCreate st e sid fail err).1).endpointSessionCounts =
      aset st.endpointSessionCounts e
        ((alookup st.endpointSessionCounts e).getD 0 + 1) := by
  cases fail <;> rfl

theorem beginAfterCreate_transports (st : GatewayState) (e sid : String)
    (fail : BeginFail) (err : String) :
    ((beginAfterCreate st e sid fail err).1).transports =
      aset st.transports sid st.nextTransportId := by
  cases fail <;> rfl

theorem cleanupEndpointIfUnused_transports (st : GatewayState) (e : String) :
    (cleanupEndpointIfUnused st e).transports = st.transports := by
  unfold cleanupEndpointIfUnused
  cases halookup : alookup st.metamcpServers e <;>
    by_cases hc : (alookup st.endpointSessionCounts e).getD 0 ≤ 0 <;>
      simp [halookup, hc]

theorem decrementStage_transports (st : GatewayState) (e : String) :
    (decrementStage st e).transports = st.transports := by
  unfold decrementStage
  split <;> rfl

theorem cleanupSession_transports_of_absent (st : GatewayState)
    (sid e : String) (h : alookup st.transports sid = none) :
    (cleanupSession st sid e).transports = st.transports := by
  unfold cleanupSession
  rw [cleanupEndpointIfUnused_transports]
  show (decrementStage (closeTransportStage st sid) e).transports =
    st.transports
  rw [decrementStage_transports]
  unfold closeTransportStage
  rw [h]

/-! ### C5 and C6: the authentication gate -/

/-- C5: for an endpoint with API-key auth enabled and query-parameter auth
disabled, a request with no `authorization` header and no `x-api-key` header
— whatever its query parameters carry — is rejected with
401 "Authentication required" (not "Invalid API key"), the enumerated
accepted methods are exactly the two headers, and the Credential Validator
is never invoked. -/
theorem c5_query_param_ignored_when_disabled
    (validate : String → Option (String × String)) (endpoint : Endpoint)
    (req : Request)
    (hauth : endpoint.enable_api_key_auth = true)
    (hq : endpoint.use_query_param_auth = false)
    (h1 : req.authorizationHeader = none)
    (h2 : req.xApiKeyHeader = none) :
    authenticateApiKey validate endpoint req =
      (AuthOutcome.reject ⟨401, Body.jsonError "Authentication required"
        ("API key required in one of: " ++
          String.intercalate ", " (authMethods endpoint))⟩, false) ∧
    authMethods endpoint =
      ["Authorization header (Bearer token)", "X-API-Key header"] := by
  constructor
  · simp [authenticateApiKey, extractApiKey, headerApiKey, jsTruthy,
      hauth, hq, h1, h2]
  · simp [authMethods, hq]

/-- Witness for C5 at a concrete endpoint and request whose only credential
is the query parameter `api_key=X`. -/
theorem c5_witness :
    authenticateApiKey (fun _ => none) ⟨true, false⟩
        ⟨none, none, some "X", none⟩ =
      (AuthOutcome.reject ⟨401, Body.jsonError "Authentication required"
        ("API key required in one of: " ++
          String.intercalate ", " (authMethods ⟨true, false⟩))⟩, false) ∧
    authMethods ⟨true, false⟩ =
      ["Authorization header (Bearer token)", "X-API-Key header"] :=
  c5_query_param_ignored_when_disabled (fun _ => none) ⟨true, false⟩
    ⟨none, none, some "X", none⟩ rfl rfl rfl rfl

/-- C6: for an endpoint with API-key auth disabled, every request passes the
gate immediately — the outcome is `next` with no identity attached (empty
AuthContext) and the Credential Validator is not consulted. -/
theorem c6_auth_disabled_passes
    (validate : String → Option (String × String)) (endpoint : Endpoint)
    (req : Request) (h : endpoint.enable_api_key_auth = false) :
    authenticateApiKey validate endpoint req =
      (AuthOutcome.next none none, false) := by
  simp [authenticateApiKey, h]

/-- Witness for C6: a credential-free request against an auth-disabled
endpoint, with a validator that would reject everything. -/
theorem c6_witness :
    authenticateApiKey (fun _ => none) ⟨false, true⟩
        ⟨none, none, none, none⟩ = (AuthOutcome.next none none, false) :=
  c6_auth_disabled_passes (fun _ => none) ⟨false, true⟩
    ⟨none, none, none, none⟩ rfl

/-! ### C1: exclusive creation under concurrent Begin requests -/

/-- Sanity anchor for the interleaving model: a Begin task scheduled alone
(three consecutive segments, no other task interleaved) reaches exactly the
state of the sequential `beginPath`. -/
theorem runSchedule_single_task (st : GatewayState) (e sidA sidB : String)
    (pb : Phase) :
    (runSchedule e sidA sidB st Phase.notStarted pb
        [false, false, false]).1 = (beginPath st e sidA BeginFail.ok "").1 := by
  cases h : createCheck st e <;>
    simp [runSchedule, taskStep, beginPath, h]

/-- C1: the claim fails on the code. `createMetaMcpServer` caches the
instance only after the `await createServer(...)` resolves, so two
concurrent Begin requests for the same uncached endpoint can both pass the
cache check before either stores: under the schedule A-check, B-check,
A-resume, A-rest, B-resume, B-rest, the Upstream Factory is invoked twice,
session A is bound to instance 0 while session B is bound to instance 1
(not the same instance), and the cache retains only instance 1 — instance 0
leaks with no cache entry left to tear it down. -/
theorem c1_concurrent_begin_duplicates_factory_call :
    (let r := runSchedule "ep" "sA" "sB" initialState
        Phase.notStarted Phase.notStarted
        [false, true, false, false, true, true]
     factoryCalls r.1 = 2 ∧
     r.2.1 = Phase.done 0 ∧
     r.2.2 = Phase.done 1 ∧
     alookup r.1.metamcpServers "ep" = some 1 ∧
     alookup r.1.transports "sA" = some 0 ∧
     alookup r.1.transports "sB" = some 1) := by
  decide

/-! ### C2: End on an unknown or closed session -/

/-- C2 counterexample: on the empty registry, a DELETE carrying an unknown
`mcp-session-id` completes with status 200 and an empty body — a silent
success, not a session-not-found error (the only per-session effect is the
external cleanup hook being invoked for the unknown id). -/
theorem c2_counterexample :
    (deletePath initialState "ep" (some "ghost")).2 = ⟨200, Body.empty⟩ ∧
    (deletePath initialState "ep" (some "ghost")).2.status ≠ 404 := by
  decide

/-- C2 amended: the End operation on a session id that is unknown to the
registry (or already closed, hence removed from it) completes with
status 200 and an empty body, leaving the transport map unchanged — a
silent success rather than a reported session-not-found error. -/
theorem c2_end_unknown_session_silent_success (st : GatewayState)
    (e sid : String) (h : alookup st.transports sid = none) :
    (deletePath st e (some sid)).2 = ⟨200, Body.empty⟩ ∧
    ((deletePath st e (some sid)).1).transports = st.transports := by
  refine ⟨rfl, ?_⟩
  show (cleanupSession st sid e).transports = st.transports
  exact cleanupSession_transports_of_absent st sid e h

/-- Witness for the amended C2 on the empty registry. -/
theorem c2_amended_witness :
    alookup initialState.transports "ghost" = none ∧
    ((deletePath initialState "ep" (some "ghost")).2 = ⟨200, Body.empty⟩ ∧
      ((deletePath initialState "ep" (some "ghost")).1).transports =
        initialState.transports) :=
  ⟨rfl, c2_end_unknown_session_silent_success initialState "ep" "ghost" rfl⟩

/-! ### C4: registration versus connect ordering in Begin -/

/-- C4 counterexample: Begin stores the transport in `transports` before the
connect step. With the connect step failing, the new session is already
registered (its transport is in the map and a concurrent GET for that id is
answered 200 and dispatched) even though no connect ever succeeded — the log
holds only the factory call and the store. -/
theorem c4_counterexample :
    alookup (beginPath initialState "ep" "s1" BeginFail.atConnect
        "connect refused").1.transports "s1" = some 0 ∧
    (beginPath initialState "ep" "s1" BeginFail.atConnect
        "connect refused").1.log =
      [Event.factoryCall "ep" 0, Event.storeTransport "s1" 0] ∧
    (getPath (beginPath initialState "ep" "s1" BeginFail.atConnect
        "connect refused").1 "s1").2.status = 200 := by
  decide

/-- C4 amended: in every successful Begin the transport is registered in the
session map and only then connected: the events appended to the log are
(for a cache miss, a factory call, then) storeTransport, connect, dispatch,
in that order — so the session is visible to concurrent lookups before the
connect step, not after it. -/
theorem c4_store_precedes_connect (st : GatewayState) (e sid err : String) :
    ∃ pre tid, ((beginPath st e sid BeginFail.ok err).1).log =
      st.log ++ pre ++ [Event.storeTransport sid tid] ++
        [Event.connect sid tid] ++ [Event.dispatch sid tid] := by
  cases h : createCheck st e with
  | some inst =>
      exact ⟨[], st.nextTransportId, by
        simp [beginPath, h, beginAfterCreate]⟩
  | none =>
      exact ⟨[Event.factoryCall e st.nextInstanceId], st.nextTransportId, by
        simp [beginPath, h, beginAfterCreate, createStart, createFinish]⟩

/-! ### C7: rollback of the acquired reference on Begin failure -/

/-- C7: the claim fails on the code. When the connect step of Begin throws,
the route's catch only answers 500: the endpoint's session count keeps the
increment (1, not restored to 0 — the acquired reference is not released)
and the session record stays behind in the transport map. -/
theorem c7_no_rollback_on_connect_failure :
    (beginPath initialState "ep" "s1" BeginFail.atConnect "boom").2 =
      ⟨500, Body.rawError "boom"⟩ ∧
    alookup (beginPath initialState "ep" "s1" BeginFail.atConnect
        "boom").1.endpointSessionCounts "ep" = some 1 ∧
    alookup (beginPath initialState "ep" "s1" BeginFail.atConnect
        "boom").1.transports "s1" = some 0 := by
  decide

/-! ### C8: internal-failure response bodies -/

/-- C8: the claim fails on the code. The handlers answer internal failures
with `res.status(500).json(error)`: the caught exception payload is placed
verbatim in the response body instead of a generic category-and-message
body. Shown on the POST Begin path with the initial dispatch throwing. -/
theorem c8_internal_failure_leaks_raw_error :
    (beginPath initialState "ep" "s2" BeginFail.atDispatch
        "TypeError: cannot read properties of undefined (stack trace)").2 =
      ⟨500, Body.rawError
        "TypeError: cannot read properties of undefined (stack trace)"⟩ := by
  decide

/-! ### C9: Continue reuses the transport stored at Begin -/

/-- C9: after any successful Begin, a Continue carrying the same session id
looks up the identity-equal transport stored at Begin and forwards the
request through it: the response is 200, the state is unchanged except for
the dispatch record through that very transport — in particular no new
transport is created (`nextTransportId` unchanged, transport map unchanged)
and no additional Upstream Factory call occurs. -/
theorem c9_begin_then_continue_reuses_transport (st0 : GatewayState)
    (e sid err : String) :
    ∃ tid,
      alookup ((beginPath st0 e sid BeginFail.ok err).1).transports sid =
        some tid ∧
      continuePath (beginPath st0 e sid BeginFail.ok err).1 sid =
        ({ (beginPath st0 e sid BeginFail.ok err).1 with
            log := ((beginPath st0 e sid BeginFail.ok err).1).log ++
              [Event.dispatch sid tid] }, ⟨200, Body.empty⟩) ∧
      factoryCalls (continuePath (beginPath st0 e sid
          BeginFail.ok err).1 sid).1 =
        factoryCalls (beginPath st0 e sid BeginFail.ok err).1 ∧
      (continuePath (beginPath st0 e sid
          BeginFail.ok err).1 sid).1.nextTransportId =
        ((beginPath st0 e sid BeginFail.ok err).1).nextTransportId ∧
      (continuePath (beginPath st0 e sid
          BeginFail.ok err).1 sid).1.transports =
        ((beginPath st0 e sid BeginFail.ok err).1).transports := by
  have htr : ((beginPath st0 e sid BeginFail.ok err).1).transports =
      aset st0.transports sid st0.nextTransportId := by
    cases h : createCheck st0 e <;>
      simp [beginPath, h, beginAfterCreate, createStart, createFinish]
  have hlook : alookup ((beginPath st0 e sid
      BeginFail.ok err).1).transports sid = some st0.nextTransportId := by
    rw [htr]; exact alookup_aset_self _ _ _
  refine ⟨st0.nextTransportId, hlook, ?_, ?_, ?_, ?_⟩
  · simp [continuePath, hlook]
  · simp [continuePath, hlook, factoryCalls]
  · simp [continuePath, hlook]
  · simp [continuePath, hlook]

/-! ### C3: the endpoint session count -/

/-- States reachable from process start by the router's handlers: POST
without a session header (Begin, with any failure mode of its awaited
steps), POST with a session header (Continue), GET, and DELETE. -/
inductive Reachable : GatewayState → Prop
  | init : Reachable initialState
  | beginStep (st : GatewayState) (e sid : String) (fail : BeginFail)
      (err : String) : Reachable st → Reachable (beginPath st e sid fail err).1
  | continueStep (st : GatewayState) (sid : String) :
      Reachable st → Reachable (continuePath st sid).1
  | getStep (st : GatewayState) (sid : String) :
      Reachable st → Reachable (getPath st sid).1
  | deleteStep (st : GatewayState) (e : String) (sh : Option String) :
      Reachable st → Reachable (deletePath st e sh).1

/-- All recorded endpoint session counts are nonnegative. -/
def countsNonneg (st : GatewayState) : Prop :=
  ∀ p ∈ st.endpointSessionCounts, 0 ≤ p.2

theorem countsNonneg_getD {st : GatewayState} (h : countsNonneg st)
    (e : String) : 0 ≤ (alookup st.endpointSessionCounts e).getD 0 := by
  cases hl : alookup st.endpointSessionCounts e with
  | none => simp
  | some v => simpa using h _ (alookup_mem hl)

theorem countsNonneg_aset {m : AList Int} {v : Int}
    (hm : ∀ p ∈ m, 0 ≤ p.2) (k : String) (hv : 0 ≤ v) :
    ∀ p ∈ aset m k v, 0 ≤ p.2 := by
  intro p hp
  rcases mem_aset hp with h | h
  · subst h; exact hv
  · exact hm _ h

/-- The session counts after `beginPath` are either unchanged (factory
rejection) or the endpoint's count incremented. -/
theorem beginPath_counts (st : GatewayState) (e sid : String)
    (fail : BeginFail) (err : String) :
    ((beginPath st e sid fail err).1).endpointSessionCounts =
        st.endpointSessionCounts ∨
    ((beginPath st e sid fail err).1).endpointSessionCounts =
        aset st.endpointSessionCounts e
          ((alookup st.endpointSessionCounts e).getD 0 + 1) := by
  cases hc : createCheck st e with
  | some inst =>
      right
      simp [beginPath, hc, beginAfterCreate_counts]
  | none =>
      cases fail with
      | atFactory => left; simp [beginPath, hc]
      | ok =>
          right
          simp [beginPath, hc, beginAfterCreate_counts, createStart,
            createFinish]
      | atConnect =>
          right
          simp [beginPath, hc, beginAfterCreate_counts, createStart,
            createFinish]
      | atDispatch =>
          right
          simp [beginPath, hc, beginAfterCreate_counts, createStart,
            createFinish]

theorem countsNonneg_beginPath {st : GatewayState} (h : countsNonneg st)
    (e sid : String) (fail : BeginFail) (err : String) :
    countsNonneg (beginPath st e sid fail err).1 := by
  intro p hp
  rcases beginPath_counts st e sid fail err with heq | heq
  · rw [heq] at hp
    exact h p hp
  · rw [heq] at hp
    exact countsNonneg_aset h e
      (le_trans (countsNonneg_getD h e) (by omega)) p hp

theorem countsNonneg_cleanupEndpointIfUnused {st : GatewayState}
    (h : countsNonneg st) (e : String) :
    countsNonneg (cleanupEndpointIfUnused st e) := by
  unfold cleanupEndpointIfUnused
  by_cases hc : (alookup st.endpointSessionCounts e).getD 0 ≤ 0
  · rw [if_pos hc]
    cases hm : alookup st.metamcpServers e with
    | none => exact h
    | some inst => exact fun p hp => h p (mem_aerase hp)
  · rw [if_neg hc]
    exact h

theorem countsNonneg_closeTransportStage {st : GatewayState}
    (h : countsNonneg st) (sid : String) :
    countsNonneg (closeTransportStage st sid) := by
  unfold closeTransportStage
  cases alookup st.transports sid
  · exact h
  · exact h

theorem countsNonneg_decrementStage {st : GatewayState}
    (h : countsNonneg st) (e : String) :
    countsNonneg (decrementStage st e) := by
  unfold decrementStage
  by_cases hc : (alookup st.endpointSessionCounts e).getD 0 > 0
  · rw [if_pos hc]
    intro p hp
    refine countsNonneg_aset h e ?_ p hp
    omega
  · rw [if_neg hc]
    exact h

theorem countsNonneg_sessionConnectionsStage {st : GatewayState}
    (h : countsNonneg st) (sid : String) :
    countsNonneg (sessionConnectionsStage st sid) := h

theorem countsNonneg_cleanupSession {st : GatewayState} (h : countsNonneg st)
    (sid e : String) : countsNonneg (cleanupSession st sid e) := by
  unfold cleanupSession
  exact countsNonneg_cleanupEndpointIfUnused
    (countsNonneg_sessionConnectionsStage
      (countsNonneg_decrementStage
        (countsNonneg_closeTransportStage h sid) e) sid)
    e

theorem reachable_countsNonneg {st : GatewayState} (h : Reachable st) :
    countsNonneg st := by
  induction h with
  | init => intro p hp; simp [initialState] at hp
  | beginStep st e sid fail err _ ih =>
      exact countsNonneg_beginPath ih e sid fail err
  | continueStep st sid _ ih =>
      unfold continuePath
      cases alookup st.transports sid <;> simpa using ih
  | getStep st sid _ ih =>
      unfold getPath
      cases alookup st.transports sid <;> simpa using ih
  | deleteStep st e sh _ ih =>
      cases sh with
      | none => simpa [deletePath] using ih
      | some sid => exact countsNonneg_cleanupSession ih sid e

/-- C3 counterexample: stale-count teardown. From the empty state, Begin a
session `s1` on endpoint `ep` (count 1, one live session), then End with an
unknown session id `ghost` for the same endpoint: `cleanupSession` skips the
missing transport but still decrements `ep`'s count to 0, and
`cleanupEndpointIfUnused` then tears the cached instance down — while the
live session `s1` is still bound (1 transport in the map, recorded count 0,
1 teardown). The count does not equal the number of live bound sessions and
the instance is torn down with a session still live. -/
theorem c3_counterexample :
    (let st := (deletePath (beginPath initialState "ep" "s1"
        BeginFail.ok "").1 "ep" (some "ghost")).1
     st.transports.length = 1 ∧
     (alookup st.endpointSessionCounts "ep").getD 0 = 0 ∧
     teardownCalls st = 1 ∧
     alookup st.metamcpServers "ep" = none) := by
  decide

/-- C3 amended: in every state reachable by the router's handlers, every
endpoint's recorded session count is nonnegative (the decrement is guarded
by a positivity check). The count need not equal the number of live bound
sessions, and teardown can fire while sessions are still bound, because End
with an unknown session id for an endpoint also decrements that endpoint's
count. -/
theorem c3_session_count_nonneg {st : GatewayState} (h : Reachable st)
    (e : String) : 0 ≤ (alookup st.endpointSessionCounts e).getD 0 :=
  countsNonneg_getD (reachable_countsNonneg h) e

/-- Witness for the amended C3 at the state reached by one Begin followed by
one End. -/
theorem c3_amended_witness :
    0 ≤ (alookup ((deletePath (beginPath initialState "ep" "s1"
        BeginFail.ok "").1 "ep" (some "s1")).1).endpointSessionCounts
      "ep").getD 0 :=
  c3_session_count_nonneg
    (Reachable.deleteStep _ "ep" (some "s1")
      (Reachable.beginStep _ "ep" "s1" BeginFail.ok "" Reachable.init)) "ep"

/-! ### C10: `retryDbQuery` -/

theorem retryGo_calls_le {ε α : Type} (query : Nat → Except ε α) :
    ∀ r a, (retryGo query r a).2 ≤ r + 1 := by
  intro r
  induction r with
  | zero => intro a; simp [retryGo]
  | succ n ih =>
      intro a
      cases hq : query a with
      | ok v => simp [retryGo, hq]
      | error e =>
          have := ih (a + 1)
          simp [retryGo, hq]
          omega

theorem retryGo_first_ok {ε α : Type} (query : Nat → Except ε α) :
    ∀ (k : Nat) (r a : Nat) (v : α), query (a + k) = Except.ok v →
      (∀ j, j < k → ∃ e, query (a + j) = Except.error e) →
      k ≤ r → (retryGo query r a).1 = Except.ok v := by
  intro k
  induction k with
  | zero =>
      intro r a v hok _ _
      cases r with
      | zero => simpa [retryGo] using hok
      | succ n => simp [retryGo, show query a = Except.ok v by simpa using hok]
  | succ k ih =>
      intro r a v hok hfail hle
      cases r with
      | zero => omega
      | succ n =>
          obtain ⟨e0, he0⟩ := hfail 0 (by omega)
          have he0' : query a = Except.error e0 := by simpa using he0
          have hok' : query ((a + 1) + k) = Except.ok v := by
            have : (a + 1) + k = a + (k + 1) := by omega
            rw [this]; exact hok
          have hfail' : ∀ j, j < k → ∃ e,
              query ((a + 1) + j) = Except.error e := by
            intro j hj
            have : (a + 1) + j = a + (j + 1) := by omega
            rw [this]
            exact hfail (j + 1) (by omega)
          simpa [retryGo, he0'] using ih n (a + 1) v hok' hfail' (by omega)

theorem retryGo_all_error {ε α : Type} (query : Nat → Except ε α)
    (es : Nat → ε) :
    ∀ r a, (∀ j, j ≤ r → query (a + j) = Except.error (es (a + j))) →
      retryGo query r a = (Except.error (es (a + r)), r + 1) := by
  intro r
  induction r with
  | zero =>
      intro a h
      have := h 0 (by omega)
      simpa [retryGo] using this
  | succ n ih =>
      intro a h
      have h0 : query a = Except.error (es a) := by simpa using h 0 (by omega)
      have h' : ∀ j, j ≤ n →
          query ((a + 1) + j) = Except.error (es ((a + 1) + j)) := by
        intro j hj
        have : (a + 1) + j = a + (j + 1) := by omega
        rw [this]
        exact h (j + 1) (by omega)
      have hrec := ih (a + 1) h'
      have harith : (a + 1) + n = a + (n + 1) := by omega
      simp [retryGo, h0, hrec, harith]

/-- C10: `retryDbQuery` invokes its query thunk at most `retries + 1` times
(11 with the source's default of `retries = 10`); it returns the value of
the first invocation that succeeds; and when every permitted invocation
throws, it rethrows the error of the final attempt (attempt index
`retries`), having invoked the thunk exactly `retries + 1` times. -/
theorem c10_retryDbQuery_bounds {ε α : Type} (query : Nat → Except ε α)
    (retries : Nat) :
    retryDbQueryCalls query retries ≤ retries + 1 ∧
    (∀ (k : Nat) (v : α), k ≤ retries → query k = Except.ok v →
      (∀ j, j < k → ∃ e, query j = Except.error e) →
      retryDbQuery query retries = Except.ok v) ∧
    (∀ es : Nat → ε, (∀ j, j ≤ retries → query j = Except.error (es j)) →
      retryDbQuery query retries = Except.error (es retries) ∧
      retryDbQueryCalls query retries = retries + 1) := by
  refine ⟨retryGo_calls_le query retries 0, ?_, ?_⟩
  · intro k v hk hok hfail
    exact retryGo_first_ok query k retries 0 v (by simpa using hok)
      (fun j hj => by simpa using hfail j hj) hk
  · intro es h
    have := retryGo_all_error query es retries 0
      (fun j hj => by simpa using h j hj)
    constructor
    · show (retryGo query retries 0).1 = Except.error (es retries)
      rw [this]; simp
    · show (retryGo query retries 0).2 = retries + 1
      rw [this]

/-- Witness for C10 with the default `retries = 10`: a query that fails once
then succeeds yields the first success with at most 11 invocations; a query
that always fails yields the error of attempt 10 after exactly 11
invocations. -/
theorem c10_witness :
    retryDbQueryCalls (fun n => if n = 0 then Except.error 0
      else (Except.ok 7 : Except Nat Nat)) 10 ≤ 11 ∧
    retryDbQuery (fun n => if n = 0 then Except.error 0
      else (Except.ok 7 : Except Nat Nat)) 10 = Except.ok 7 ∧
    retryDbQuery (fun n => (Except.error n : Except Nat Nat)) 10 =
      Except.error 10 ∧
    retryDbQueryCalls (fun n => (Except.error n : Except Nat Nat)) 10 = 11 := by
  refine ⟨(c10_retryDbQuery_bounds _ 10).1, ?_, ?_, ?_⟩
  · exact (c10_retryDbQuery_bounds _ 10).2.1 1 7 (by omega) rfl
      (fun j hj => ⟨0, by interval_cases j; rfl⟩)
  · exact ((c10_retryDbQuery_bounds
      (fun n => (Except.error n : Except Nat Nat)) 10).2.2
      (fun j => j) (fun j hj => rfl)).1
  · exact ((c10_retryDbQuery_bounds
      (fun n => (Except.error n : Except Nat Nat)) 10).2.2
      (fun j => j) (fun j hj => rfl)).2

end MetaMCP
